import Mathlib

/-!
Shallow embedding of the construction-company record system
(`construction_company.py`): design plans, housing projects, road
projects and the company registry, together with the operations that
create and mutate them.  Python's in-place mutation becomes explicit
state passing: a method that mutates `self` and returns a message is
embedded as a function returning the updated entity paired with the
message.  Wall-clock timestamps (`datetime.now()`) become an abstract
clock value `Nat` supplied by the caller; `strftime` formatting becomes
the decimal rendering of that value.  Python object references to
`DesignPlan` instances become indices into the list of all created
plans, so that aliasing (a project observing later mutations of its
assigned plan) is modelled faithfully.
-/

/-- Embedding of `datetime.strftime`: render an abstract clock value. -/
def formatDate (t : Nat) : String := toString t

/-- True when a returned message starts with the failure marker
`Error:` (the first six characters). -/
def isErrorMsg (m : String) : Bool := m.data.take 6 == ("Error:").data

/-- Python dict assignment `d[key] = value` on an association list:
replace the value at an existing key in place, else append. -/
def dictInsert : List (String × String) → String → String → List (String × String)
  | [], k, v => [(k, v)]
  | (k₀, v₀) :: rest, k, v =>
      if k₀ = k then (k, v) :: rest else (k₀, v₀) :: dictInsert rest k v

/-- Update the element at index `i` of a list in place (mutating one
object held in a Python list); out-of-range indices leave the list
unchanged. -/
def modifyIdx : List α → Nat → (α → α) → List α
  | [], _, _ => []
  | a :: as, 0, f => f a :: as
  | a :: as, n + 1, f => a :: modifyIdx as n f

/-- Embeds `DesignPlan`: a blueprint record (`construction_company.py`,
class `DesignPlan`). -/
structure DesignPlan where
  plan_id : String
  plan_type : String
  description : String
  area_sqft : ℚ
  estimated_cost : ℚ
  created_date : Nat
  approved : Bool
  specifications : List (String × String)
deriving DecidableEq

/-- Embeds `DesignPlan.__init__`. -/
def DesignPlan.init (plan_id plan_type description : String)
    (area_sqft estimated_cost : ℚ) (now : Nat) : DesignPlan :=
  { plan_id := plan_id, plan_type := plan_type, description := description,
    area_sqft := area_sqft, estimated_cost := estimated_cost,
    created_date := now, approved := false, specifications := [] }

/-- Embeds `DesignPlan.add_specification`. -/
def DesignPlan.add_specification (p : DesignPlan) (key value : String) : DesignPlan :=
  { p with specifications := dictInsert p.specifications key value }

/-- Embeds `DesignPlan.approve_plan`: sets `approved` and returns a message. -/
def DesignPlan.approve_plan (p : DesignPlan) (now : Nat) : DesignPlan × String :=
  ({ p with approved := true },
   "Plan " ++ p.plan_id ++ " approved on " ++ formatDate now)

/-- The snapshot mapping returned by `DesignPlan.get_details`. -/
structure PlanDetails where
  plan_id : String
  type : String
  description : String
  area_sqft : ℚ
  estimated_cost : ℚ
  approved : Bool
  specifications : List (String × String)
  created_date : String
deriving DecidableEq

/-- Embeds `DesignPlan.get_details`. -/
def DesignPlan.get_details (p : DesignPlan) : PlanDetails :=
  { plan_id := p.plan_id, type := p.plan_type, description := p.description,
    area_sqft := p.area_sqft, estimated_cost := p.estimated_cost,
    approved := p.approved, specifications := p.specifications,
    created_date := formatDate p.created_date }

/-- Embeds `HousingProject` (`construction_company.py`, class
`HousingProject`); `design_plan` holds a reference (index) to a
`DesignPlan` object, or `none`. -/
structure HousingProject where
  project_id : String
  project_name : String
  housing_type : String
  num_units : Int
  design_plan : Option Nat
  status : String
  start_date : Option Nat
  completion_date : Option Nat
  materials : List (String × ℚ × String)
  workers_assigned : Int
deriving DecidableEq

/-- Embeds `HousingProject.__init__`. -/
def HousingProject.init (project_id project_name housing_type : String)
    (num_units : Int) : HousingProject :=
  { project_id := project_id, project_name := project_name,
    housing_type := housing_type, num_units := num_units,
    design_plan := none, status := "planned", start_date := none,
    completion_date := none, materials := [], workers_assigned := 0 }

/-- Embeds `HousingProject.assign_design_plan`; `ref` is the reference to the
plan object being passed, `plan` its current state. -/
def HousingProject.assign_design_plan (hp : HousingProject) (ref : Nat)
    (plan : DesignPlan) : HousingProject × String :=
  if plan.approved = false then
    (hp, "Error: Design plan must be approved first")
  else if plan.plan_type ≠ "housing" then
    (hp, "Error: Design plan type \x27" ++ plan.plan_type ++
      "\x27 is not compatible with housing projects")
  else
    ({ hp with design_plan := some ref },
     "Design plan " ++ plan.plan_id ++ " assigned to " ++ hp.project_name)

/-- Embeds `HousingProject.start_construction`; dereferences the stored plan
reference through `heap`, the list of all created plans.  (A dangling
reference cannot arise in any actual execution; it is sent to the
error branch to keep the function total.) -/
def HousingProject.start_construction (hp : HousingProject)
    (heap : List DesignPlan) (workers : Int) (now : Nat) :
    HousingProject × String :=
  match hp.design_plan with
  | some r =>
    match heap[r]? with
    | some p =>
      if p.approved then
        ({ hp with
            status := "in_progress"
            start_date := some now
            workers_assigned := workers },
         "Construction started for " ++ hp.project_name ++ " with " ++
           toString workers ++ " workers")
      else (hp, "Error: Approved design plan required to start construction")
    | none => (hp, "Error: Approved design plan required to start construction")
  | none => (hp, "Error: Approved design plan required to start construction")

/-- Embeds `HousingProject.add_materials`. -/
def HousingProject.add_materials (hp : HousingProject) (material : String)
    (quantity : ℚ) (unit : String) : HousingProject :=
  { hp with materials := hp.materials ++ [(material, quantity, unit)] }

/-- Embeds `HousingProject.complete_project`. -/
def HousingProject.complete_project (hp : HousingProject) (now : Nat) :
    HousingProject × String :=
  ({ hp with status := "completed", completion_date := some now },
   "Housing project " ++ hp.project_name ++ " completed on " ++ formatDate now)

/-- Embeds `RoadProject` (`construction_company.py`, class `RoadProject`). -/
structure RoadProject where
  project_id : String
  road_name : String
  road_type : String
  length_km : ℚ
  design_plan : Option Nat
  status : String
  lanes : Int
  surface_type : String
  start_date : Option Nat
  completion_date : Option Nat
  workers_assigned : Int
  equipment : List (String × Int)
deriving DecidableEq

/-- Embeds `RoadProject.__init__`. -/
def RoadProject.init (project_id road_name road_type : String)
    (length_km : ℚ) : RoadProject :=
  { project_id := project_id, road_name := road_name,
    road_type := road_type, length_km := length_km,
    design_plan := none, status := "planned", lanes := 2,
    surface_type := "asphalt", start_date := none,
    completion_date := none, workers_assigned := 0, equipment := [] }

/-- Embeds `RoadProject.assign_design_plan`. -/
def RoadProject.assign_design_plan (rp : RoadProject) (ref : Nat)
    (plan : DesignPlan) : RoadProject × String :=
  if plan.approved = false then
    (rp, "Error: Design plan must be approved first")
  else if plan.plan_type ≠ "road" then
    (rp, "Error: Design plan type \x27" ++ plan.plan_type ++
      "\x27 is not compatible with road projects")
  else
    ({ rp with design_plan := some ref },
     "Design plan " ++ plan.plan_id ++ " assigned to " ++ rp.road_name)

/-- Embeds `RoadProject.set_road_specs`. -/
def RoadProject.set_road_specs (rp : RoadProject) (lanes : Int)
    (surface_type : String) : RoadProject :=
  { rp with lanes := lanes, surface_type := surface_type }

/-- Embeds `RoadProject.start_construction`. -/
def RoadProject.start_construction (rp : RoadProject)
    (heap : List DesignPlan) (workers : Int) (now : Nat) :
    RoadProject × String :=
  match rp.design_plan with
  | some r =>
    match heap[r]? with
    | some p =>
      if p.approved then
        ({ rp with
            status := "in_progress"
            start_date := some now
            workers_assigned := workers },
         "Road construction started for " ++ rp.road_name ++ " with " ++
           toString workers ++ " workers")
      else (rp, "Error: Approved design plan required to start construction")
    | none => (rp, "Error: Approved design plan required to start construction")
  | none => (rp, "Error: Approved design plan required to start construction")

/-- Embeds `RoadProject.add_equipment`. -/
def RoadProject.add_equipment (rp : RoadProject) (equipment_name : String)
    (quantity : Int) : RoadProject :=
  { rp with equipment := rp.equipment ++ [(equipment_name, quantity)] }

/-- Embeds `RoadProject.schedule_maintenance`. -/
def RoadProject.schedule_maintenance (rp : RoadProject) : RoadProject × String :=
  if rp.status = "completed" then
    ({ rp with status := "maintenance" },
     "Maintenance scheduled for " ++ rp.road_name)
  else
    (rp, "Error: Road must be completed before scheduling maintenance")

/-- Embeds `RoadProject.complete_project`. -/
def RoadProject.complete_project (rp : RoadProject) (now : Nat) :
    RoadProject × String :=
  ({ rp with status := "completed", completion_date := some now },
   "Road project " ++ rp.road_name ++ " completed on " ++ formatDate now)

/-- Embeds `ConstructionCompany` (`construction_company.py`, class
`ConstructionCompany`).  `design_plans` doubles as the heap of plan
objects that project references point into. -/
structure ConstructionCompany where
  company_name : String
  housing_projects : List HousingProject
  road_projects : List RoadProject
  design_plans : List DesignPlan
  total_workers : Int
  active_projects : Int
deriving DecidableEq

/-- Embeds `ConstructionCompany.__init__`. -/
def ConstructionCompany.init (company_name : String) : ConstructionCompany :=
  { company_name := company_name, housing_projects := [],
    road_projects := [], design_plans := [],
    total_workers := 0, active_projects := 0 }

/-- Embeds `ConstructionCompany.create_design_plan`: constructs the plan,
appends it and returns it (here: its reference index and value). -/
def ConstructionCompany.create_design_plan (c : ConstructionCompany)
    (plan_id plan_type description : String)
    (area_sqft estimated_cost : ℚ) (now : Nat) :
    ConstructionCompany × DesignPlan :=
  let plan := DesignPlan.init plan_id plan_type description area_sqft
    estimated_cost now
  ({ c with design_plans := c.design_plans ++ [plan] }, plan)

/-- Embeds `ConstructionCompany.create_housing_project`. -/
def ConstructionCompany.create_housing_project (c : ConstructionCompany)
    (project_id project_name housing_type : String) (num_units : Int) :
    ConstructionCompany × HousingProject :=
  let project := HousingProject.init project_id project_name housing_type
    num_units
  ({ c with housing_projects := c.housing_projects ++ [project] }, project)

/-- Embeds `ConstructionCompany.create_road_project`. -/
def ConstructionCompany.create_road_project (c : ConstructionCompany)
    (project_id road_name road_type : String) (length_km : ℚ) :
    ConstructionCompany × RoadProject :=
  let project := RoadProject.init project_id road_name road_type length_km
  ({ c with road_projects := c.road_projects ++ [project] }, project)

/-- The summary mapping returned by
`ConstructionCompany.get_all_projects`. -/
structure ProjectsSummary where
  company_name : String
  total_housing_projects : Nat
  total_road_projects : Nat
  total_design_plans : Nat
  active_housing_projects : Nat
  active_road_projects : Nat
  total_active_projects : Nat
deriving DecidableEq

/-- Embeds `ConstructionCompany.get_all_projects`; the in-progress counts
mirror Python's `sum(1 for p in ... if p.status == 'in_progress')`. -/
def ConstructionCompany.get_all_projects (c : ConstructionCompany) :
    ProjectsSummary :=
  let in_progress_housing :=
    (c.housing_projects.map
      (fun p => if p.status == "in_progress" then 1 else 0)).sum
  let in_progress_roads :=
    (c.road_projects.map
      (fun p => if p.status == "in_progress" then 1 else 0)).sum
  { company_name := c.company_name
    total_housing_projects := c.housing_projects.length
    total_road_projects := c.road_projects.length
    total_design_plans := c.design_plans.length
    active_housing_projects := in_progress_housing
    active_road_projects := in_progress_roads
    total_active_projects := in_progress_housing + in_progress_roads }

/-- Embeds `ConstructionCompany.list_design_plans`. -/
def ConstructionCompany.list_design_plans (c : ConstructionCompany) :
    List PlanDetails :=
  c.design_plans.map DesignPlan.get_details

/-- One caller-visible mutation of the object graph: a registry factory
call, or a method call on an entity previously created (named by its
index in the owning collection).  `now` parameters carry the abstract
clock value at the moment of the call. -/
inductive CompanyOp where
  | createDesignPlan (plan_id plan_type description : String)
      (area_sqft estimated_cost : ℚ) (now : Nat)
  | addSpecification (i : Nat) (key value : String)
  | approvePlan (i : Nat) (now : Nat)
  | createHousingProject (project_id project_name housing_type : String)
      (num_units : Int)
  | createRoadProject (project_id road_name road_type : String)
      (length_km : ℚ)
  | assignPlanHousing (i : Nat) (ref : Nat)
  | assignPlanRoad (i : Nat) (ref : Nat)
  | startConstructionHousing (i : Nat) (workers : Int) (now : Nat)
  | startConstructionRoad (i : Nat) (workers : Int) (now : Nat)
  | addMaterials (i : Nat) (material : String) (quantity : ℚ) (unit : String)
  | addEquipment (i : Nat) (equipment_name : String) (quantity : Int)
  | setRoadSpecs (i : Nat) (lanes : Int) (surface_type : String)
  | scheduleMaintenance (i : Nat)
  | completeHousing (i : Nat) (now : Nat)
  | completeRoad (i : Nat) (now : Nat)

/-- Effect of one operation on the company state.  Plan references
passed to `assign_design_plan` name plan objects, i.e. entries of
`c.design_plans`; an index that names no object has no Python
counterpart and is a no-op here. -/
def ConstructionCompany.step (c : ConstructionCompany) :
    CompanyOp → ConstructionCompany
  | .createDesignPlan plan_id plan_type description area cost now =>
      (c.create_design_plan plan_id plan_type description area cost now).1
  | .addSpecification i key value =>
      let f := fun (p : DesignPlan) => p.add_specification key value
      { c with design_plans := modifyIdx c.design_plans i f }
  | .approvePlan i now =>
      let f := fun (p : DesignPlan) => (p.approve_plan now).1
      { c with design_plans := modifyIdx c.design_plans i f }
  | .createHousingProject project_id project_name housing_type num_units =>
      (c.create_housing_project project_id project_name housing_type
        num_units).1
  | .createRoadProject project_id road_name road_type length_km =>
      (c.create_road_project project_id road_name road_type length_km).1
  | .assignPlanHousing i ref =>
      match c.design_plans[ref]? with
      | none => c
      | some plan =>
          let f := fun (hp : HousingProject) => (hp.assign_design_plan ref plan).1
          { c with housing_projects := modifyIdx c.housing_projects i f }
  | .assignPlanRoad i ref =>
      match c.design_plans[ref]? with
      | none => c
      | some plan =>
          let f := fun (rp : RoadProject) => (rp.assign_design_plan ref plan).1
          { c with road_projects := modifyIdx c.road_projects i f }
  | .startConstructionHousing i workers now =>
      let f := fun (hp : HousingProject) => (hp.start_construction c.design_plans workers now).1
      { c with housing_projects := modifyIdx c.housing_projects i f }
  | .startConstructionRoad i workers now =>
      let f := fun (rp : RoadProject) => (rp.start_construction c.design_plans workers now).1
      { c with road_projects := modifyIdx c.road_projects i f }
  | .addMaterials i material quantity unit =>
      let f := fun (hp : HousingProject) => hp.add_materials material quantity unit
      { c with housing_projects := modifyIdx c.housing_projects i f }
  | .addEquipment i equipment_name quantity =>
      let f := fun (rp : RoadProject) => rp.add_equipment equipment_name quantity
      { c with road_projects := modifyIdx c.road_projects i f }
  | .setRoadSpecs i lanes surface =>
      let f := fun (rp : RoadProject) => rp.set_road_specs lanes surface
      { c with road_projects := modifyIdx c.road_projects i f }
  | .scheduleMaintenance i =>
      let f := fun (rp : RoadProject) => rp.schedule_maintenance.1
      { c with road_projects := modifyIdx c.road_projects i f }
  | .completeHousing i now =>
      let f := fun (hp : HousingProject) => (hp.complete_project now).1
      { c with housing_projects := modifyIdx c.housing_projects i f }
  | .completeRoad i now =>
      let f := fun (rp : RoadProject) => (rp.complete_project now).1
      { c with road_projects := modifyIdx c.road_projects i f }

/-- A company state is reachable when some sequence of operations
starting from a fresh registry produces it. -/
def reachableCompany (c : ConstructionCompany) : Prop :=
  ∃ name ops, c = List.foldl ConstructionCompany.step
    (ConstructionCompany.init name) ops

/-- A concrete run mirroring the demo in `main()`: create and approve a
housing plan and a road plan, create one project of each kind, assign
the plans and start construction. -/
def sampleOps : List CompanyOp :=
  [ .createDesignPlan "DP001" "housing" "Residential Complex Blueprint" 5000 250000 1,
    .approvePlan 0 2,
    .createDesignPlan "DP002" "road" "Main Highway Design" 100000 1500000 3,
    .approvePlan 1 4,
    .createHousingProject "HP001" "Greenview Apartments" "apartment" 24,
    .assignPlanHousing 0 0,
    .startConstructionHousing 0 25 5,
    .createRoadProject "RD001" "Central Highway" "highway" 15,
    .assignPlanRoad 0 1,
    .startConstructionRoad 0 40 6 ]

/-- The state reached by `sampleOps`. -/
def sampleCompany : ConstructionCompany :=
  List.foldl ConstructionCompany.step
    (ConstructionCompany.init "Premier Construction Ltd.") sampleOps

/-! ### Concrete entities used to instantiate the theorems -/

def samplePlanHousing : DesignPlan :=
  ((DesignPlan.init "DP001" "housing" "Residential Complex Blueprint"
    5000 250000 1).approve_plan 2).1

def samplePlanRoad : DesignPlan :=
  ((DesignPlan.init "DP002" "road" "Main Highway Design"
    100000 1500000 3).approve_plan 4).1

def samplePlanUnapproved : DesignPlan :=
  DesignPlan.init "DP003" "housing" "Unapproved draft" 1000 50000 8

def sampleHousing : HousingProject :=
  HousingProject.init "HP001" "Greenview Apartments" "apartment" 24

def sampleRoad : RoadProject :=
  RoadProject.init "RD001" "Central Highway" "highway" 15

def sampleRoadCompleted : RoadProject := (sampleRoad.complete_project 7).1

/-- The success condition of `start_construction`: a plan reference is
stored and the referenced plan is currently approved. -/
def canStart (heap : List DesignPlan) (o : Option Nat) : Prop :=
  ∃ r p, o = some r ∧ heap[r]? = some p ∧ p.approved = true

instance (heap : List DesignPlan) (o : Option Nat) :
    Decidable (canStart heap o) := by
  unfold canStart
  cases o with
  | none => exact .isFalse (by simp)
  | some r =>
    cases hr : heap[r]? with
    | none => exact .isFalse (by simp [hr])
    | some p =>
      cases hap : p.approved with
      | false => exact .isFalse (by simp [hr, hap])
      | true => exact .isTrue ⟨r, p, rfl, hr, hap⟩

/-- A plan-mutating function that never revokes approval and never
changes the plan category. -/
def planPreserving (f : DesignPlan → DesignPlan) : Prop :=
  ∀ q : DesignPlan, (q.approved = true → (f q).approved = true) ∧
    (f q).plan_type = q.plan_type

/-- A stored plan reference is either absent or names a plan in the
heap that is approved and of the expected category. -/
def planOK (heap : List DesignPlan) (o : Option Nat) (cat : String) : Prop :=
  ∀ r, o = some r → ∃ p, heap[r]? = some p ∧ p.approved = true ∧
    p.plan_type = cat

/-- Every project of the company references (at most) an approved plan
of its own category. -/
def companyInv (c : ConstructionCompany) : Prop :=
  (∀ hp ∈ c.housing_projects,
    planOK c.design_plans hp.design_plan "housing") ∧
  (∀ rp ∈ c.road_projects, planOK c.design_plans rp.design_plan "road")

/-! ### Auxiliary lemmas -/

theorem isErrorMsg_append_left (s t : String) (h : 6 ≤ s.data.length) :
    isErrorMsg (s ++ t) = isErrorMsg s := by
  unfold isErrorMsg
  rw [String.data_append, List.take_append_eq_append_take,
      Nat.sub_eq_zero_of_le h]
  simp

theorem modifyIdx_getElem? (l : List α) (i j : Nat) (f : α → α) :
    (modifyIdx l i f)[j]? = if i = j then (l[j]?).map f else l[j]? := by
  induction l generalizing i j with
  | nil => simp [modifyIdx]
  | cons a as ih =>
    cases i with
    | zero => cases j <;> simp [modifyIdx]
    | succ n =>
      cases j with
      | zero => simp [modifyIdx]
      | succ m => simpa [modifyIdx] using ih n m

theorem length_modifyIdx (l : List α) (i : Nat) (f : α → α) :
    (modifyIdx l i f).length = l.length := by
  induction l generalizing i with
  | nil => simp [modifyIdx]
  | cons a as ih =>
    cases i with
    | zero => simp [modifyIdx]
    | succ n => simpa [modifyIdx] using ih n

theorem mem_modifyIdx {l : List α} {i : Nat} {f : α → α} {a : α}
    (h : a ∈ modifyIdx l i f) : a ∈ l ∨ ∃ b, b ∈ l ∧ a = f b := by
  induction l generalizing i with
  | nil => simp [modifyIdx] at h
  | cons x xs ih =>
    cases i with
    | zero =>
      rcases List.mem_cons.mp h with h₁ | h₂
      · exact Or.inr ⟨x, List.mem_cons_self x xs, h₁⟩
      · exact Or.inl (List.mem_cons_of_mem x h₂)
    | succ n =>
      rcases List.mem_cons.mp h with h₁ | h₂
      · exact Or.inl (h₁ ▸ List.mem_cons_self x xs)
      · rcases ih h₂ with h₃ | ⟨b, hb, rfl⟩
        · exact Or.inl (List.mem_cons_of_mem x h₃)
        · exact Or.inr ⟨b, List.mem_cons_of_mem x hb, rfl⟩

theorem getElem?_append_of_some {l l' : List α} {j : Nat} {a : α}
    (h : l[j]? = some a) : (l ++ l')[j]? = some a := by
  have hj : j < l.length := by
    by_contra hlt
    rw [List.getElem?_eq_none (Nat.le_of_not_lt hlt)] at h
    exact Option.noConfusion h
  rw [List.getElem?_append, if_pos hj]
  exact h

theorem sum_ones_eq_length_filter (l : List α) (f : α → Bool) :
    ((l.map (fun x => if f x then 1 else 0)).sum : Nat) =
      (l.filter f).length := by
  induction l with
  | nil => simp
  | cons a as ih =>
    by_cases h : f a <;> simp [h, ih, List.filter_cons, Nat.add_comm]

/-! ### Message classification -/

theorem isErrorMsg_mismatch_housing (t : String) :
    isErrorMsg ("Error: Design plan type \x27" ++ t ++
      "\x27 is not compatible with housing projects") = true := by
  simp only [String.append_assoc]
  rw [isErrorMsg_append_left _ _ (by decide)]
  decide

theorem isErrorMsg_mismatch_road (t : String) :
    isErrorMsg ("Error: Design plan type \x27" ++ t ++
      "\x27 is not compatible with road projects") = true := by
  simp only [String.append_assoc]
  rw [isErrorMsg_append_left _ _ (by decide)]
  decide

theorem isErrorMsg_assign_ok (a b : String) :
    isErrorMsg ("Design plan " ++ a ++ " assigned to " ++ b) = false := by
  simp only [String.append_assoc]
  rw [isErrorMsg_append_left _ _ (by decide)]
  decide

theorem isErrorMsg_start_housing_ok (a b : String) :
    isErrorMsg ("Construction started for " ++ a ++ " with " ++ b ++
      " workers") = false := by
  simp only [String.append_assoc]
  rw [isErrorMsg_append_left _ _ (by decide)]
  decide

theorem isErrorMsg_start_road_ok (a b : String) :
    isErrorMsg ("Road construction started for " ++ a ++ " with " ++ b ++
      " workers") = false := by
  simp only [String.append_assoc]
  rw [isErrorMsg_append_left _ _ (by decide)]
  decide

theorem isErrorMsg_maintenance_ok (a : String) :
    isErrorMsg ("Maintenance scheduled for " ++ a) = false := by
  rw [isErrorMsg_append_left _ _ (by decide)]
  decide

/-! ### Branch characterizations of the fallible operations -/

theorem assign_housing_unapproved (hp : HousingProject) (ref : Nat)
    (p : DesignPlan) (h : p.approved = false) :
    hp.assign_design_plan ref p =
      (hp, "Error: Design plan must be approved first") := by
  simp [HousingProject.assign_design_plan, h]

theorem assign_housing_mismatch (hp : HousingProject) (ref : Nat)
    (p : DesignPlan) (h1 : p.approved = true) (h2 : p.plan_type ≠ "housing") :
    hp.assign_design_plan ref p =
      (hp, "Error: Design plan type \x27" ++ p.plan_type ++
        "\x27 is not compatible with housing projects") := by
  simp [HousingProject.assign_design_plan, h1, h2]

theorem assign_housing_ok (hp : HousingProject) (ref : Nat)
    (p : DesignPlan) (h1 : p.approved = true) (h2 : p.plan_type = "housing") :
    hp.assign_design_plan ref p =
      ({ hp with design_plan := some ref },
       "Design plan " ++ p.plan_id ++ " assigned to " ++ hp.project_name) := by
  simp [HousingProject.assign_design_plan, h1, h2]

theorem assign_road_unapproved (rp : RoadProject) (ref : Nat)
    (p : DesignPlan) (h : p.approved = false) :
    rp.assign_design_plan ref p =
      (rp, "Error: Design plan must be approved first") := by
  simp [RoadProject.assign_design_plan, h]

theorem assign_road_mismatch (rp : RoadProject) (ref : Nat)
    (p : DesignPlan) (h1 : p.approved = true) (h2 : p.plan_type ≠ "road") :
    rp.assign_design_plan ref p =
      (rp, "Error: Design plan type \x27" ++ p.plan_type ++
        "\x27 is not compatible with road projects") := by
  simp [RoadProject.assign_design_plan, h1, h2]

theorem assign_road_ok (rp : RoadProject) (ref : Nat)
    (p : DesignPlan) (h1 : p.approved = true) (h2 : p.plan_type = "road") :
    rp.assign_design_plan ref p =
      ({ rp with design_plan := some ref },
       "Design plan " ++ p.plan_id ++ " assigned to " ++ rp.road_name) := by
  simp [RoadProject.assign_design_plan, h1, h2]

theorem start_housing_ok (hp : HousingProject) (heap : List DesignPlan)
    (workers : Int) (now : Nat) (r : Nat) (p : DesignPlan)
    (h1 : hp.design_plan = some r) (h2 : heap[r]? = some p)
    (h3 : p.approved = true) :
    hp.start_construction heap workers now =
      ({ hp with status := "in_progress", start_date := some now, workers_assigned := workers },
       "Construction started for " ++ hp.project_name ++ " with " ++
         toString workers ++ " workers") := by
  simp [HousingProject.start_construction, h1, h2, h3]

theorem start_housing_err (hp : HousingProject) (heap : List DesignPlan)
    (workers : Int) (now : Nat) (h : ¬ canStart heap hp.design_plan) :
    hp.start_construction heap workers now =
      (hp, "Error: Approved design plan required to start construction") := by
  unfold HousingProject.start_construction
  cases h1 : hp.design_plan with
  | none => rfl
  | some r =>
    cases h2 : heap[r]? with
    | none => simp [h2]
    | some p =>
      cases h3 : p.approved with
      | false => simp [h2, h3]
      | true => exact absurd ⟨r, p, h1, h2, h3⟩ h

theorem start_road_ok (rp : RoadProject) (heap : List DesignPlan)
    (workers : Int) (now : Nat) (r : Nat) (p : DesignPlan)
    (h1 : rp.design_plan = some r) (h2 : heap[r]? = some p)
    (h3 : p.approved = true) :
    rp.start_construction heap workers now =
      ({ rp with status := "in_progress", start_date := some now, workers_assigned := workers },
       "Road construction started for " ++ rp.road_name ++ " with " ++
         toString workers ++ " workers") := by
  simp [RoadProject.start_construction, h1, h2, h3]

theorem start_road_err (rp : RoadProject) (heap : List DesignPlan)
    (workers : Int) (now : Nat) (h : ¬ canStart heap rp.design_plan) :
    rp.start_construction heap workers now =
      (rp, "Error: Approved design plan required to start construction") := by
  unfold RoadProject.start_construction
  cases h1 : rp.design_plan with
  | none => rfl
  | some r =>
    cases h2 : heap[r]? with
    | none => simp [h2]
    | some p =>
      cases h3 : p.approved with
      | false => simp [h2, h3]
      | true => exact absurd ⟨r, p, h1, h2, h3⟩ h

theorem maintenance_ok (rp : RoadProject) (h : rp.status = "completed") :
    rp.schedule_maintenance =
      ({ rp with status := "maintenance" },
       "Maintenance scheduled for " ++ rp.road_name) := by
  simp [RoadProject.schedule_maintenance, h]

theorem maintenance_err (rp : RoadProject) (h : rp.status ≠ "completed") :
    rp.schedule_maintenance =
      (rp, "Error: Road must be completed before scheduling maintenance") := by
  simp [RoadProject.schedule_maintenance, h]

/-! ### Claims -/

/-- C1: `assign_design_plan(p)` on a housing or a road project succeeds
— storing the plan reference and returning the confirmation message —
exactly when `p` is approved and `p`'s category equals the project's
expected category ("housing" for `HousingProject`, "road" for
`RoadProject`); otherwise it returns an `Error:` message and leaves the
project, in particular its stored plan reference, unchanged. -/
theorem claim_assign_design_plan (hp : HousingProject) (rp : RoadProject)
    (ref : Nat) (p : DesignPlan) :
    (isErrorMsg (hp.assign_design_plan ref p).2 = false ↔
      p.approved = true ∧ p.plan_type = "housing") ∧
    (p.approved = true → p.plan_type = "housing" →
      hp.assign_design_plan ref p =
        ({ hp with design_plan := some ref },
         "Design plan " ++ p.plan_id ++ " assigned to " ++ hp.project_name)) ∧
    (¬(p.approved = true ∧ p.plan_type = "housing") →
      isErrorMsg (hp.assign_design_plan ref p).2 = true ∧
        (hp.assign_design_plan ref p).1 = hp) ∧
    (isErrorMsg (rp.assign_design_plan ref p).2 = false ↔
      p.approved = true ∧ p.plan_type = "road") ∧
    (p.approved = true → p.plan_type = "road" →
      rp.assign_design_plan ref p =
        ({ rp with design_plan := some ref },
         "Design plan " ++ p.plan_id ++ " assigned to " ++ rp.road_name)) ∧
    (¬(p.approved = true ∧ p.plan_type = "road") →
      isErrorMsg (rp.assign_design_plan ref p).2 = true ∧
        (rp.assign_design_plan ref p).1 = rp) := by
  have e1 : isErrorMsg "Error: Design plan must be approved first" = true := by
    decide
  cases hap : p.approved with
  | false =>
    rw [assign_housing_unapproved hp ref p hap,
        assign_road_unapproved rp ref p hap]
    simp [hap, e1]
  | true =>
    by_cases hth : p.plan_type = "housing"
    · have htr : p.plan_type ≠ "road" := by rw [hth]; decide
      rw [assign_housing_ok hp ref p hap hth,
          assign_road_mismatch rp ref p hap htr]
      simp [hap, hth, htr, isErrorMsg_assign_ok, isErrorMsg_mismatch_road]
      decide
    · by_cases htr : p.plan_type = "road"
      · rw [assign_housing_mismatch hp ref p hap hth,
            assign_road_ok rp ref p hap htr]
        simp [hap, hth, htr, isErrorMsg_assign_ok, isErrorMsg_mismatch_housing]
        decide
      · rw [assign_housing_mismatch hp ref p hap hth,
            assign_road_mismatch rp ref p hap htr]
        simp [hap, hth, htr, isErrorMsg_mismatch_housing,
          isErrorMsg_mismatch_road]

theorem claim_assign_design_plan_witness :
    samplePlanHousing.approved = true ∧
    samplePlanHousing.plan_type = "housing" ∧
    sampleHousing.assign_design_plan 0 samplePlanHousing =
      ({ sampleHousing with design_plan := some 0 },
       "Design plan DP001 assigned to Greenview Apartments") := by
  refine ⟨rfl, rfl, ?_⟩
  rw [(claim_assign_design_plan sampleHousing sampleRoad 0
    samplePlanHousing).2.1 rfl rfl]
  decide

/-- C2: `start_construction(n)` succeeds exactly when a design plan is
assigned and the referenced plan is approved; on success the status
becomes `in_progress`, `workers_assigned` becomes `n` and the start
timestamp is recorded; on failure an `Error:` message is returned and
the project is unchanged. -/
theorem claim_start_construction (heap : List DesignPlan)
    (hp : HousingProject) (rp : RoadProject) (workers : Int) (now : Nat) :
    (isErrorMsg (hp.start_construction heap workers now).2 = false ↔
      canStart heap hp.design_plan) ∧
    (∀ r p, hp.design_plan = some r → heap[r]? = some p →
      p.approved = true →
      hp.start_construction heap workers now =
        ({ hp with status := "in_progress", start_date := some now, workers_assigned := workers },
         "Construction started for " ++ hp.project_name ++ " with " ++
           toString workers ++ " workers")) ∧
    (¬ canStart heap hp.design_plan →
      hp.start_construction heap workers now =
        (hp, "Error: Approved design plan required to start construction")) ∧
    (isErrorMsg (rp.start_construction heap workers now).2 = false ↔
      canStart heap rp.design_plan) ∧
    (∀ r p, rp.design_plan = some r → heap[r]? = some p →
      p.approved = true →
      rp.start_construction heap workers now =
        ({ rp with status := "in_progress", start_date := some now, workers_assigned := workers },
         "Road construction started for " ++ rp.road_name ++ " with " ++
           toString workers ++ " workers")) ∧
    (¬ canStart heap rp.design_plan →
      rp.start_construction heap workers now =
        (rp, "Error: Approved design plan required to start construction")) := by
  have e2 : isErrorMsg
      "Error: Approved design plan required to start construction" = true := by
    decide
  refine ⟨?_, ?_, ?_, ?_, ?_, ?_⟩
  · by_cases h : canStart heap hp.design_plan
    · obtain ⟨r, p, h1, h2, h3⟩ := h
      rw [start_housing_ok hp heap workers now r p h1 h2 h3]
      simpa [isErrorMsg_start_housing_ok] using ⟨r, p, h1, h2, h3⟩
    · rw [start_housing_err hp heap workers now h]
      simp [e2, h]
  · intro r p h1 h2 h3
    exact start_housing_ok hp heap workers now r p h1 h2 h3
  · intro h
    exact start_housing_err hp heap workers now h
  · by_cases h : canStart heap rp.design_plan
    · obtain ⟨r, p, h1, h2, h3⟩ := h
      rw [start_road_ok rp heap workers now r p h1 h2 h3]
      simpa [isErrorMsg_start_road_ok] using ⟨r, p, h1, h2, h3⟩
    · rw [start_road_err rp heap workers now h]
      simp [e2, h]
  · intro r p h1 h2 h3
    exact start_road_ok rp heap workers now r p h1 h2 h3
  · intro h
    exact start_road_err rp heap workers now h

theorem claim_start_construction_witness :
    (({ sampleHousing with design_plan := some 0 } :
        HousingProject).start_construction [samplePlanHousing] 25 5) =
      ({ sampleHousing with design_plan := some 0, status := "in_progress", start_date := some 5, workers_assigned := 25 },
       "Construction started for Greenview Apartments with 25 workers") := by
  rw [(claim_start_construction [samplePlanHousing]
    { sampleHousing with design_plan := some 0 } sampleRoad 25 5).2.1
    0 samplePlanHousing rfl rfl rfl]
  decide

/-- C3: `schedule_maintenance()` on a road project succeeds exactly
when the status is `completed`; on success the status becomes
`maintenance` with a confirmation message; otherwise an `Error:`
message is returned and the project is unchanged. -/
theorem claim_schedule_maintenance (rp : RoadProject) :
    (isErrorMsg rp.schedule_maintenance.2 = false ↔
      rp.status = "completed") ∧
    (rp.status = "completed" →
      rp.schedule_maintenance =
        ({ rp with status := "maintenance" },
         "Maintenance scheduled for " ++ rp.road_name)) ∧
    (rp.status ≠ "completed" →
      rp.schedule_maintenance =
        (rp, "Error: Road must be completed before scheduling maintenance")) := by
  have e3 : isErrorMsg
      "Error: Road must be completed before scheduling maintenance" = true := by
    decide
  refine ⟨?_, fun h => maintenance_ok rp h, fun h => maintenance_err rp h⟩
  by_cases h : rp.status = "completed"
  · rw [maintenance_ok rp h]
    simp [isErrorMsg_maintenance_ok, h]
  · rw [maintenance_err rp h]
    simp [e3, h]

theorem claim_schedule_maintenance_witness :
    sampleRoadCompleted.status = "completed" ∧
    sampleRoadCompleted.schedule_maintenance =
      ({ sampleRoadCompleted with status := "maintenance" },
       "Maintenance scheduled for Central Highway") := by
  refine ⟨rfl, ?_⟩
  rw [(claim_schedule_maintenance sampleRoadCompleted).2.1 rfl]
  decide

/-- C4: every fallible operation (`assign_design_plan`,
`start_construction`, `schedule_maintenance`) signals failure by
returning a message carrying the `Error:` prefix (the embedding is a
total function — nothing is thrown), and whenever the returned message
carries that prefix the receiving entity is unchanged. -/
theorem claim_error_signaling (heap : List DesignPlan) (hp : HousingProject)
    (rp : RoadProject) (ref : Nat) (p : DesignPlan) (workers : Int)
    (now : Nat) :
    (isErrorMsg (hp.assign_design_plan ref p).2 = true →
      (hp.assign_design_plan ref p).1 = hp) ∧
    (¬(p.approved = true ∧ p.plan_type = "housing") →
      isErrorMsg (hp.assign_design_plan ref p).2 = true) ∧
    (isErrorMsg (rp.assign_design_plan ref p).2 = true →
      (rp.assign_design_plan ref p).1 = rp) ∧
    (¬(p.approved = true ∧ p.plan_type = "road") →
      isErrorMsg (rp.assign_design_plan ref p).2 = true) ∧
    (isErrorMsg (hp.start_construction heap workers now).2 = true →
      (hp.start_construction heap workers now).1 = hp) ∧
    (¬ canStart heap hp.design_plan →
      isErrorMsg (hp.start_construction heap workers now).2 = true) ∧
    (isErrorMsg (rp.start_construction heap workers now).2 = true →
      (rp.start_construction heap workers now).1 = rp) ∧
    (¬ canStart heap rp.design_plan →
      isErrorMsg (rp.start_construction heap workers now).2 = true) ∧
    (isErrorMsg rp.schedule_maintenance.2 = true →
      rp.schedule_maintenance.1 = rp) ∧
    (rp.status ≠ "completed" → isErrorMsg rp.schedule_maintenance.2 = true) := by
  refine ⟨?_, ?_, ?_, ?_, ?_, ?_, ?_, ?_, ?_, ?_⟩
  · intro hmsg
    cases hap : p.approved with
    | false => rw [assign_housing_unapproved hp ref p hap]
    | true =>
      by_cases hth : p.plan_type = "housing"
      · rw [assign_housing_ok hp ref p hap hth] at hmsg
        simp [isErrorMsg_assign_ok] at hmsg
      · rw [assign_housing_mismatch hp ref p hap hth]
  · intro hcond
    cases hap : p.approved with
    | false =>
      rw [assign_housing_unapproved hp ref p hap]
      show isErrorMsg "Error: Design plan must be approved first" = true
      decide
    | true =>
      have hth : p.plan_type ≠ "housing" := fun h => hcond ⟨hap, h⟩
      rw [assign_housing_mismatch hp ref p hap hth]
      exact isErrorMsg_mismatch_housing p.plan_type
  · intro hmsg
    cases hap : p.approved with
    | false => rw [assign_road_unapproved rp ref p hap]
    | true =>
      by_cases hth : p.plan_type = "road"
      · rw [assign_road_ok rp ref p hap hth] at hmsg
        simp [isErrorMsg_assign_ok] at hmsg
      · rw [assign_road_mismatch rp ref p hap hth]
  · intro hcond
    cases hap : p.approved with
    | false =>
      rw [assign_road_unapproved rp ref p hap]
      show isErrorMsg "Error: Design plan must be approved first" = true
      decide
    | true =>
      have hth : p.plan_type ≠ "road" := fun h => hcond ⟨hap, h⟩
      rw [assign_road_mismatch rp ref p hap hth]
      exact isErrorMsg_mismatch_road p.plan_type
  · intro hmsg
    by_cases h : canStart heap hp.design_plan
    · obtain ⟨r, q, h1, h2, h3⟩ := h
      rw [start_housing_ok hp heap workers now r q h1 h2 h3] at hmsg
      simp [isErrorMsg_start_housing_ok] at hmsg
    · rw [start_housing_err hp heap workers now h]
  · intro h
    rw [start_housing_err hp heap workers now h]
    show isErrorMsg
      "Error: Approved design plan required to start construction" = true
    decide
  · intro hmsg
    by_cases h : canStart heap rp.design_plan
    · obtain ⟨r, q, h1, h2, h3⟩ := h
      rw [start_road_ok rp heap workers now r q h1 h2 h3] at hmsg
      simp [isErrorMsg_start_road_ok] at hmsg
    · rw [start_road_err rp heap workers now h]
  · intro h
    rw [start_road_err rp heap workers now h]
    show isErrorMsg
      "Error: Approved design plan required to start construction" = true
    decide
  · intro hmsg
    by_cases h : rp.status = "completed"
    · rw [maintenance_ok rp h] at hmsg
      simp [isErrorMsg_maintenance_ok] at hmsg
    · rw [maintenance_err rp h]
  · intro h
    rw [maintenance_err rp h]
    show isErrorMsg
      "Error: Road must be completed before scheduling maintenance" = true
    decide

theorem claim_error_signaling_witness :
    ¬(samplePlanUnapproved.approved = true ∧
        samplePlanUnapproved.plan_type = "housing") ∧
    isErrorMsg (sampleHousing.assign_design_plan 0 samplePlanUnapproved).2
      = true ∧
    (sampleHousing.assign_design_plan 0 samplePlanUnapproved).1 =
      sampleHousing := by
  have h := claim_error_signaling [] sampleHousing sampleRoad 0
    samplePlanUnapproved 0 0
  exact ⟨by decide, h.2.1 (by decide), h.1 (h.2.1 (by decide))⟩

/-! ### How one step acts on the plan heap -/

theorem step_design_plans (c : ConstructionCompany) (op : CompanyOp) :
    (c.step op).design_plans = c.design_plans ∨
    (∃ p, (c.step op).design_plans = c.design_plans ++ [p]) ∨
    (∃ j f, planPreserving f ∧
      (c.step op).design_plans = modifyIdx c.design_plans j f) := by
  cases op with
  | createDesignPlan plan_id plan_type description area cost now =>
    exact Or.inr (Or.inl ⟨_, rfl⟩)
  | addSpecification i key value =>
    refine Or.inr (Or.inr ⟨i, _, ?_, rfl⟩)
    intro q
    exact ⟨fun h => h, rfl⟩
  | approvePlan i now =>
    refine Or.inr (Or.inr ⟨i, _, ?_, rfl⟩)
    intro q
    exact ⟨fun _ => rfl, rfl⟩
  | assignPlanHousing i ref =>
    cases h : c.design_plans[ref]? with
    | none => exact Or.inl (by simp [ConstructionCompany.step, h])
    | some plan => exact Or.inl (by simp [ConstructionCompany.step, h])
  | assignPlanRoad i ref =>
    cases h : c.design_plans[ref]? with
    | none => exact Or.inl (by simp [ConstructionCompany.step, h])
    | some plan => exact Or.inl (by simp [ConstructionCompany.step, h])
  | createHousingProject a b d e => exact Or.inl rfl
  | createRoadProject a b d e => exact Or.inl rfl
  | startConstructionHousing i w t => exact Or.inl rfl
  | startConstructionRoad i w t => exact Or.inl rfl
  | addMaterials i m q u => exact Or.inl rfl
  | addEquipment i e q => exact Or.inl rfl
  | setRoadSpecs i l s => exact Or.inl rfl
  | scheduleMaintenance i => exact Or.inl rfl
  | completeHousing i t => exact Or.inl rfl
  | completeRoad i t => exact Or.inl rfl

theorem heap_evolve (c : ConstructionCompany) (op : CompanyOp) (i : Nat)
    (p : DesignPlan) (hi : c.design_plans[i]? = some p) :
    ∃ q, (c.step op).design_plans[i]? = some q ∧
      (p.approved = true → q.approved = true) ∧
      q.plan_type = p.plan_type := by
  rcases step_design_plans c op with h | ⟨x, h⟩ | ⟨j, f, hf, h⟩
  · exact ⟨p, h ▸ hi, fun a => a, rfl⟩
  · exact ⟨p, h ▸ getElem?_append_of_some hi, fun a => a, rfl⟩
  · rw [h, modifyIdx_getElem?]
    by_cases hj : j = i
    · exact ⟨f p, by simp [hj, hi], (hf p).1, (hf p).2⟩
    · exact ⟨p, by simp [hj, hi], fun a => a, rfl⟩

/-- C5: `approved` starts `false` at construction, `approve_plan` sets
it to `true`, a second `approve_plan` changes nothing (idempotent), and
no operation of any entity ever resets the `approved` flag of a plan
held by the company back to `false`. -/
theorem claim_approved_monotonic :
    (∀ plan_id plan_type description area cost now,
      (DesignPlan.init plan_id plan_type description area cost
        now).approved = false) ∧
    (∀ (p : DesignPlan) (now : Nat), (p.approve_plan now).1.approved = true) ∧
    (∀ (p : DesignPlan) (t t' : Nat),
      ((p.approve_plan t).1.approve_plan t').1 = (p.approve_plan t).1) ∧
    (∀ (c : ConstructionCompany) (op : CompanyOp) (i : Nat) (p : DesignPlan),
      c.design_plans[i]? = some p → p.approved = true →
      ∃ q, (c.step op).design_plans[i]? = some q ∧ q.approved = true) := by
  refine ⟨fun _ _ _ _ _ _ => rfl, fun _ _ => rfl, fun _ _ _ => rfl, ?_⟩
  intro c op i p hi hap
  obtain ⟨q, hq, himp, _⟩ := heap_evolve c op i p hi
  exact ⟨q, hq, himp hap⟩

theorem claim_approved_monotonic_witness :
    sampleCompany.design_plans[0]? = some samplePlanHousing ∧
    samplePlanHousing.approved = true ∧
    ∃ q, (sampleCompany.step (.completeHousing 0 9)).design_plans[0]? =
      some q ∧ q.approved = true := by
  refine ⟨by decide, rfl, ?_⟩
  exact claim_approved_monotonic.2.2.2 sampleCompany (.completeHousing 0 9)
    0 samplePlanHousing (by decide) rfl

/-- C6: for every reachable company state, `get_all_projects` reports
the lengths of the three collections as totals, the number of
`in_progress` projects in each project collection as active counts, and
their sum as `total_active_projects`. -/
theorem claim_get_all_projects (c : ConstructionCompany)
    (_h : reachableCompany c) :
    (c.get_all_projects).company_name = c.company_name ∧
    (c.get_all_projects).total_housing_projects =
      c.housing_projects.length ∧
    (c.get_all_projects).total_road_projects = c.road_projects.length ∧
    (c.get_all_projects).total_design_plans = c.design_plans.length ∧
    (c.get_all_projects).active_housing_projects =
      (c.housing_projects.filter
        (fun p => p.status == "in_progress")).length ∧
    (c.get_all_projects).active_road_projects =
      (c.road_projects.filter (fun p => p.status == "in_progress")).length ∧
    (c.get_all_projects).total_active_projects =
      (c.get_all_projects).active_housing_projects +
        (c.get_all_projects).active_road_projects := by
  refine ⟨rfl, rfl, rfl, rfl, ?_, ?_, rfl⟩
  · exact sum_ones_eq_length_filter c.housing_projects
      (fun p => p.status == "in_progress")
  · exact sum_ones_eq_length_filter c.road_projects
      (fun p => p.status == "in_progress")

theorem claim_get_all_projects_witness :
    reachableCompany sampleCompany ∧
    (sampleCompany.get_all_projects).total_housing_projects = 1 ∧
    (sampleCompany.get_all_projects).total_road_projects = 1 ∧
    (sampleCompany.get_all_projects).total_design_plans = 2 ∧
    (sampleCompany.get_all_projects).total_active_projects = 2 := by
  have hr : reachableCompany sampleCompany :=
    ⟨"Premier Construction Ltd.", sampleOps, rfl⟩
  have h := claim_get_all_projects sampleCompany hr
  refine ⟨hr, h.2.1.trans (by decide), h.2.2.1.trans (by decide),
    h.2.2.2.1.trans (by decide), ?_⟩
  rw [h.2.2.2.2.2.2]
  decide

/-- C7: `complete_project()` is unguarded: from any status it sets the
status to `completed`, records the completion timestamp, changes
nothing else, and returns a confirmation (non-error) message. -/
theorem claim_complete_project (hp : HousingProject) (rp : RoadProject)
    (now : Nat) :
    hp.complete_project now =
      ({ hp with status := "completed", completion_date := some now },
       "Housing project " ++ hp.project_name ++ " completed on " ++
         formatDate now) ∧
    isErrorMsg (hp.complete_project now).2 = false ∧
    rp.complete_project now =
      ({ rp with status := "completed", completion_date := some now },
       "Road project " ++ rp.road_name ++ " completed on " ++
         formatDate now) ∧
    isErrorMsg (rp.complete_project now).2 = false := by
  refine ⟨rfl, ?_, rfl, ?_⟩
  · show isErrorMsg ("Housing project " ++ hp.project_name ++
      " completed on " ++ formatDate now) = false
    simp only [String.append_assoc]
    rw [isErrorMsg_append_left _ _ (by decide)]
    decide
  · show isErrorMsg ("Road project " ++ rp.road_name ++
      " completed on " ++ formatDate now) = false
    simp only [String.append_assoc]
    rw [isErrorMsg_append_left _ _ (by decide)]
    decide

/-- C8: `list_design_plans()` returns exactly one snapshot per created
plan, in creation order (position `i` of the listing is the snapshot of
plan `i`), with each snapshot's `approved` field equal to the live
plan's flag; `create_design_plan` appends the new plan at the end of
the collection. -/
theorem claim_list_design_plans (c : ConstructionCompany) :
    c.list_design_plans.length = c.design_plans.length ∧
    (∀ (i : Nat) (p : DesignPlan), c.design_plans[i]? = some p →
      c.list_design_plans[i]? = some p.get_details ∧
      p.get_details.approved = p.approved) ∧
    (∀ plan_id plan_type description area cost now,
      (c.create_design_plan plan_id plan_type description area cost
        now).1.design_plans =
        c.design_plans ++
          [DesignPlan.init plan_id plan_type description area cost now]) := by
  refine ⟨by simp [ConstructionCompany.list_design_plans], ?_,
    fun _ _ _ _ _ _ => rfl⟩
  intro i p hi
  exact ⟨by simp [ConstructionCompany.list_design_plans, hi], rfl⟩

theorem claim_list_design_plans_witness :
    sampleCompany.design_plans[1]? = some samplePlanRoad ∧
    sampleCompany.list_design_plans[1]? = some samplePlanRoad.get_details ∧
    samplePlanRoad.get_details.approved = samplePlanRoad.approved := by
  have h := (claim_list_design_plans sampleCompany).2.1 1 samplePlanRoad
    (by decide)
  exact ⟨by decide, h.1, h.2⟩

/-! ### The registry's unused counters -/

theorem step_counters (c : ConstructionCompany) (op : CompanyOp) :
    (c.step op).total_workers = c.total_workers ∧
    (c.step op).active_projects = c.active_projects := by
  cases op
  case assignPlanHousing i ref =>
    cases h : c.design_plans[ref]? <;> simp [ConstructionCompany.step, h]
  case assignPlanRoad i ref =>
    cases h : c.design_plans[ref]? <;> simp [ConstructionCompany.step, h]
  all_goals exact ⟨rfl, rfl⟩

theorem counters_foldl (ops : List CompanyOp) (c : ConstructionCompany)
    (h1 : c.total_workers = 0) (h2 : c.active_projects = 0) :
    (List.foldl ConstructionCompany.step c ops).total_workers = 0 ∧
    (List.foldl ConstructionCompany.step c ops).active_projects = 0 := by
  induction ops generalizing c with
  | nil => exact ⟨h1, h2⟩
  | cons op ops ih =>
    exact ih (c.step op) ((step_counters c op).1.trans h1)
      ((step_counters c op).2.trans h2)

/-- C10: `total_workers` and `active_projects` are `0` in the fresh
registry and in every reachable state, no operation updates them, and
`get_all_projects` does not read them — its result is unchanged when
they are replaced by arbitrary values. -/
theorem claim_unused_counters (c : ConstructionCompany)
    (h : reachableCompany c) :
    c.total_workers = 0 ∧ c.active_projects = 0 ∧
    (∀ name, (ConstructionCompany.init name).total_workers = 0 ∧
      (ConstructionCompany.init name).active_projects = 0) ∧
    (∀ op, (c.step op).total_workers = c.total_workers ∧
      (c.step op).active_projects = c.active_projects) ∧
    (∀ w a, ({ c with total_workers := w, active_projects := a } :
        ConstructionCompany).get_all_projects = c.get_all_projects) := by
  obtain ⟨name, ops, rfl⟩ := h
  obtain ⟨h1, h2⟩ := counters_foldl ops (ConstructionCompany.init name) rfl rfl
  exact ⟨h1, h2, fun _ => ⟨rfl, rfl⟩, fun op => step_counters _ op,
    fun _ _ => rfl⟩

theorem claim_unused_counters_witness :
    reachableCompany sampleCompany ∧
    sampleCompany.total_workers = 0 ∧ sampleCompany.active_projects = 0 := by
  have hr : reachableCompany sampleCompany :=
    ⟨"Premier Construction Ltd.", sampleOps, rfl⟩
  have h := claim_unused_counters sampleCompany hr
  exact ⟨hr, h.1, h.2.1⟩

/-! ### The plan-reference invariant -/

theorem start_housing_design_plan (hp : HousingProject)
    (heap : List DesignPlan) (w : Int) (t : Nat) :
    (hp.start_construction heap w t).1.design_plan = hp.design_plan := by
  by_cases h : canStart heap hp.design_plan
  · obtain ⟨r, p, h1, h2, h3⟩ := h
    rw [start_housing_ok hp heap w t r p h1 h2 h3]
  · rw [start_housing_err hp heap w t h]

theorem start_road_design_plan (rp : RoadProject)
    (heap : List DesignPlan) (w : Int) (t : Nat) :
    (rp.start_construction heap w t).1.design_plan = rp.design_plan := by
  by_cases h : canStart heap rp.design_plan
  · obtain ⟨r, p, h1, h2, h3⟩ := h
    rw [start_road_ok rp heap w t r p h1 h2 h3]
  · rw [start_road_err rp heap w t h]

theorem maintenance_design_plan (rp : RoadProject) :
    rp.schedule_maintenance.1.design_plan = rp.design_plan := by
  by_cases h : rp.status = "completed" <;>
    simp [RoadProject.schedule_maintenance, h]

theorem planOK_step (c : ConstructionCompany) (op : CompanyOp)
    (o : Option Nat) (cat : String) (h : planOK c.design_plans o cat) :
    planOK (c.step op).design_plans o cat := by
  intro r hr
  obtain ⟨p, hp, hap, hty⟩ := h r hr
  obtain ⟨q, hq, himp, hty'⟩ := heap_evolve c op r p hp
  exact ⟨q, hq, himp hap, hty'.trans hty⟩

theorem inv_step (c : ConstructionCompany) (op : CompanyOp)
    (h : companyInv c) : companyInv (c.step op) := by
  cases op with
  | createDesignPlan a b d e f g =>
    exact ⟨fun hp hm => planOK_step c _ _ _ (h.1 hp hm),
           fun rp hm => planOK_step c _ _ _ (h.2 rp hm)⟩
  | addSpecification i k v =>
    exact ⟨fun hp hm => planOK_step c _ _ _ (h.1 hp hm),
           fun rp hm => planOK_step c _ _ _ (h.2 rp hm)⟩
  | approvePlan i t =>
    exact ⟨fun hp hm => planOK_step c _ _ _ (h.1 hp hm),
           fun rp hm => planOK_step c _ _ _ (h.2 rp hm)⟩
  | createHousingProject a b d e =>
    constructor
    · intro hp hm
      have hm' : hp ∈ c.housing_projects ++ [HousingProject.init a b d e] :=
        hm
      rcases List.mem_append.mp hm' with hold | hnew
      · exact h.1 hp hold
      · have heq : hp = HousingProject.init a b d e := by simpa using hnew
        subst heq
        intro r hr
        exact absurd hr (by simp [HousingProject.init])
    · exact fun rp hm => h.2 rp hm
  | createRoadProject a b d e =>
    constructor
    · exact fun hp hm => h.1 hp hm
    · intro rp hm
      have hm' : rp ∈ c.road_projects ++ [RoadProject.init a b d e] := hm
      rcases List.mem_append.mp hm' with hold | hnew
      · exact h.2 rp hold
      · have heq : rp = RoadProject.init a b d e := by simpa using hnew
        subst heq
        intro r hr
        exact absurd hr (by simp [RoadProject.init])
  | assignPlanHousing i ref =>
    cases href : c.design_plans[ref]? with
    | none =>
      have hstep : c.step (.assignPlanHousing i ref) = c := by
        simp [ConstructionCompany.step, href]
      rw [hstep]; exact h
    | some plan =>
      have hstep : c.step (.assignPlanHousing i ref) =
          { c with housing_projects := modifyIdx c.housing_projects i (fun hp => (hp.assign_design_plan ref plan).1) } := by
        simp [ConstructionCompany.step, href]
      rw [hstep]
      constructor
      · intro hp hm
        rcases mem_modifyIdx hm with hold | ⟨b, hb, rfl⟩
        · exact h.1 hp hold
        · show planOK c.design_plans
            ((b.assign_design_plan ref plan).1).design_plan "housing"
          by_cases hap : plan.approved = true
          · by_cases hty : plan.plan_type = "housing"
            · rw [assign_housing_ok b ref plan hap hty]
              intro r hr
              obtain rfl : ref = r := by simpa using hr
              exact ⟨plan, href, hap, hty⟩
            · rw [assign_housing_mismatch b ref plan hap hty]
              exact h.1 b hb
          · rw [assign_housing_unapproved b ref plan
              (Bool.not_eq_true plan.approved ▸ hap)]
            exact h.1 b hb
      · exact fun rp hm => h.2 rp hm
  | assignPlanRoad i ref =>
    cases href : c.design_plans[ref]? with
    | none =>
      have hstep : c.step (.assignPlanRoad i ref) = c := by
        simp [ConstructionCompany.step, href]
      rw [hstep]; exact h
    | some plan =>
      have hstep : c.step (.assignPlanRoad i ref) =
          { c with road_projects := modifyIdx c.road_projects i (fun rp => (rp.assign_design_plan ref plan).1) } := by
        simp [ConstructionCompany.step, href]
      rw [hstep]
      constructor
      · exact fun hp hm => h.1 hp hm
      · intro rp hm
        rcases mem_modifyIdx hm with hold | ⟨b, hb, rfl⟩
        · exact h.2 rp hold
        · show planOK c.design_plans
            ((b.assign_design_plan ref plan).1).design_plan "road"
          by_cases hap : plan.approved = true
          · by_cases hty : plan.plan_type = "road"
            · rw [assign_road_ok b ref plan hap hty]
              intro r hr
              obtain rfl : ref = r := by simpa using hr
              exact ⟨plan, href, hap, hty⟩
            · rw [assign_road_mismatch b ref plan hap hty]
              exact h.2 b hb
          · rw [assign_road_unapproved b ref plan
              (Bool.not_eq_true plan.approved ▸ hap)]
            exact h.2 b hb
  | startConstructionHousing i w t =>
    constructor
    · intro hp hm
      rcases mem_modifyIdx hm with hold | ⟨b, hb, rfl⟩
      · exact h.1 hp hold
      · show planOK c.design_plans
          ((b.start_construction c.design_plans w t).1).design_plan "housing"
        rw [start_housing_design_plan]
        exact h.1 b hb
    · exact fun rp hm => h.2 rp hm
  | startConstructionRoad i w t =>
    constructor
    · exact fun hp hm => h.1 hp hm
    · intro rp hm
      rcases mem_modifyIdx hm with hold | ⟨b, hb, rfl⟩
      · exact h.2 rp hold
      · show planOK c.design_plans
          ((b.start_construction c.design_plans w t).1).design_plan "road"
        rw [start_road_design_plan]
        exact h.2 b hb
  | addMaterials i m q u =>
    constructor
    · intro hp hm
      rcases mem_modifyIdx hm with hold | ⟨b, hb, rfl⟩
      · exact h.1 hp hold
      · exact h.1 b hb
    · exact fun rp hm => h.2 rp hm
  | addEquipment i e q =>
    constructor
    · exact fun hp hm => h.1 hp hm
    · intro rp hm
      rcases mem_modifyIdx hm with hold | ⟨b, hb, rfl⟩
      · exact h.2 rp hold
      · exact h.2 b hb
  | setRoadSpecs i l s =>
    constructor
    · exact fun hp hm => h.1 hp hm
    · intro rp hm
      rcases mem_modifyIdx hm with hold | ⟨b, hb, rfl⟩
      · exact h.2 rp hold
      · exact h.2 b hb
  | scheduleMaintenance i =>
    constructor
    · exact fun hp hm => h.1 hp hm
    · intro rp hm
      rcases mem_modifyIdx hm with hold | ⟨b, hb, rfl⟩
      · exact h.2 rp hold
      · show planOK c.design_plans
          (b.schedule_maintenance.1).design_plan "road"
        rw [maintenance_design_plan]
        exact h.2 b hb
  | completeHousing i t =>
    constructor
    · intro hp hm
      rcases mem_modifyIdx hm with hold | ⟨b, hb, rfl⟩
      · exact h.1 hp hold
      · exact h.1 b hb
    · exact fun rp hm => h.2 rp hm
  | completeRoad i t =>
    constructor
    · exact fun hp hm => h.1 hp hm
    · intro rp hm
      rcases mem_modifyIdx hm with hold | ⟨b, hb, rfl⟩
      · exact h.2 rp hold
      · exact h.2 b hb

theorem inv_init (name : String) :
    companyInv (ConstructionCompany.init name) :=
  ⟨fun hp hm => absurd hm (List.not_mem_nil hp),
   fun rp hm => absurd hm (List.not_mem_nil rp)⟩

theorem inv_foldl (ops : List CompanyOp) (c : ConstructionCompany)
    (h : companyInv c) :
    companyInv (List.foldl ConstructionCompany.step c ops) := by
  induction ops generalizing c with
  | nil => exact h
  | cons op ops ih => exact ih (c.step op) (inv_step c op h)

/-- C9: in every reachable company state, every housing or road project
either has no stored design-plan reference, or the referenced plan
exists in the registry, is approved, and its category matches the
project kind. -/
theorem claim_plan_reference_invariant (c : ConstructionCompany)
    (h : reachableCompany c) : companyInv c := by
  obtain ⟨name, ops, rfl⟩ := h
  exact inv_foldl ops (ConstructionCompany.init name) (inv_init name)

theorem claim_plan_reference_invariant_witness :
    reachableCompany sampleCompany ∧ companyInv sampleCompany := by
  have hr : reachableCompany sampleCompany :=
    ⟨"Premier Construction Ltd.", sampleOps, rfl⟩
  exact ⟨hr, claim_plan_reference_invariant sampleCompany hr⟩
